import Mathlib

/-!
Shallow embedding of `pilot-code/pilot.py` (the Dask pilot bootstrap) and
proofs about its behaviour.

Modelling conventions:
* The process environment is a partial map `String → Option String`
  (`none` = variable unset).
* Python truthiness of an optional string (`None` and `""` are falsy,
  everything else truthy) is `pyTruthy`.
* Python dictionaries with string keys and string values are association
  lists in insertion order; `dictGet` is `dict.get(key)` (returns `none`
  for an absent key).
* External effects (spawning a process, constructing a Dask client,
  opening and writing files) are modelled by oracle functions packaged in
  `World` / `FS`, so the translated functions stay pure and executable.
* Logging is modelled as the list of emitted log records.
-/

namespace DaskPilot

/-- The process environment: a partial map from variable names to values. -/
def Env : Type := String → Option String

/-- Levels of the log records the pilot emits. -/
inductive LogLevel where
  | info
  | warning
  | error
deriving DecidableEq, Repr

/-- One emitted log record. -/
structure LogEntry where
  level : LogLevel
  msg : String
deriving DecidableEq, Repr

/-- Number of error-level records in a log. -/
def countErrors (log : List LogEntry) : Nat :=
  (log.filter (fun e => e.level == LogLevel.error)).length

/-- Python truthiness of an optional string: `None` and `""` are falsy. -/
def pyTruthy : Option String → Bool
  | none => false
  | some s => !s.isEmpty

/-- Error code 1: a required environment variable is unset (pilot.py line 21). -/
def ERROR_UNSET_ENVVAR : Nat := 1

/-- Error code 2: the Dask scheduler client is unavailable (pilot.py line 22). -/
def ERROR_SCHEDULER : Nat := 2

/-- Error code 3: job-definition failure, reserved (pilot.py line 23). -/
def ERROR_JOBDEF : Nat := 3

/-- The hardcoded default user-code URL (pilot.py line 203). -/
def defaultUserCodeUrl : String := "http://cern.ch/atlas-panda-pilot/dask_script.py"

/-- `dict.get(key)` on a Python dict modelled as an association list:
the value at the first (hence, for a dict, only) matching key, `none` when absent. -/
def dictGet (d : List (String × String)) (k : String) : Option String :=
  match d.find? (fun p => p.1 == k) with
  | some p => some p.2
  | none => none

/-- Embedding of `get_required_vars_dict` (pilot.py lines 176-205): iterate the
dict `{'host': 'DASK_SCHEDULER_IP', 'shared_disk': 'DASK_SHARED_FILESYSTEM_PATH',
'job_id': 'PANDA_ID'}` in insertion order, adding an entry only when the
environment value is truthy; then always add `'url'` with
`os.getenv('DASK_USERCODE_URL', default)`. -/
def get_required_vars_dict (env : Env) : List (String × String) :=
  let vars : List (String × String) :=
    [("host", "DASK_SCHEDULER_IP"),
     ("shared_disk", "DASK_SHARED_FILESYSTEM_PATH"),
     ("job_id", "PANDA_ID")]
  let required_vars :=
    vars.foldl
      (fun acc p =>
        match env p.2 with
        | some s => if s.isEmpty then acc else acc ++ [(p.1, s)]
        | none => acc)
      []
  required_vars ++ [("url", (env "DASK_USERCODE_URL").getD defaultUserCodeUrl)]

/-- `os.environ[k] = v`: point update of the environment. -/
def envStore (e : Env) (k v : String) : Env :=
  fun n => if n = k then some v else e n

/-- Embedding of `setenv` (pilot.py lines 208-222): store every entry of the
given mapping into the process environment, in order. -/
def setenv (env : Env) (vars : List (String × String)) : Env :=
  vars.foldl (fun e p => envStore e p.1 p.2) env

/-- The entry that the `get_required_vars_dict` loop contributes for one
recognized variable: present exactly when the environment value is truthy. -/
def optEntry (k : String) (o : Option String) : List (String × String) :=
  match o with
  | some s => if s.isEmpty then [] else [(k, s)]
  | none => []

theorem grvd_eq (env : Env) :
    get_required_vars_dict env =
      optEntry "host" (env "DASK_SCHEDULER_IP")
        ++ optEntry "shared_disk" (env "DASK_SHARED_FILESYSTEM_PATH")
        ++ optEntry "job_id" (env "PANDA_ID")
        ++ [("url", (env "DASK_USERCODE_URL").getD defaultUserCodeUrl)] := by
  cases h1 : env "DASK_SCHEDULER_IP" <;>
    cases h2 : env "DASK_SHARED_FILESYSTEM_PATH" <;>
      cases h3 : env "PANDA_ID" <;>
        simp [get_required_vars_dict, optEntry, List.foldl, h1, h2, h3] <;>
          split_ifs <;> simp

/-- What the loop of `get_required_vars_dict` keeps of one environment value:
the value itself when truthy, nothing otherwise. -/
def truthyFilter (o : Option String) : Option String :=
  match o with
  | some s => if s.isEmpty then none else some s
  | none => none

theorem dictGet_grvd_host (env : Env) :
    dictGet (get_required_vars_dict env) "host" = truthyFilter (env "DASK_SCHEDULER_IP") := by
  rw [grvd_eq]
  cases h1 : env "DASK_SCHEDULER_IP" <;>
    cases h2 : env "DASK_SHARED_FILESYSTEM_PATH" <;>
      cases h3 : env "PANDA_ID" <;>
        simp [dictGet, optEntry, truthyFilter] <;> split_ifs <;> simp

theorem dictGet_grvd_shared_disk (env : Env) :
    dictGet (get_required_vars_dict env) "shared_disk" =
      truthyFilter (env "DASK_SHARED_FILESYSTEM_PATH") := by
  rw [grvd_eq]
  cases h1 : env "DASK_SCHEDULER_IP" <;>
    cases h2 : env "DASK_SHARED_FILESYSTEM_PATH" <;>
      cases h3 : env "PANDA_ID" <;>
        simp [dictGet, optEntry, truthyFilter] <;> split_ifs <;> simp

theorem dictGet_grvd_job_id (env : Env) :
    dictGet (get_required_vars_dict env) "job_id" = truthyFilter (env "PANDA_ID") := by
  rw [grvd_eq]
  cases h1 : env "DASK_SCHEDULER_IP" <;>
    cases h2 : env "DASK_SHARED_FILESYSTEM_PATH" <;>
      cases h3 : env "PANDA_ID" <;>
        simp [dictGet, optEntry, truthyFilter] <;> split_ifs <;> simp

theorem dictGet_grvd_url (env : Env) :
    dictGet (get_required_vars_dict env) "url" =
      some ((env "DASK_USERCODE_URL").getD defaultUserCodeUrl) := by
  rw [grvd_eq]
  cases h1 : env "DASK_SCHEDULER_IP" <;>
    cases h2 : env "DASK_SHARED_FILESYSTEM_PATH" <;>
      cases h3 : env "PANDA_ID" <;>
        simp [dictGet, optEntry] <;> split_ifs <;> simp

theorem dictGet_grvd_shared_dir (env : Env) :
    dictGet (get_required_vars_dict env) "shared_dir" = none := by
  rw [grvd_eq]
  cases h1 : env "DASK_SCHEDULER_IP" <;>
    cases h2 : env "DASK_SHARED_FILESYSTEM_PATH" <;>
      cases h3 : env "PANDA_ID" <;>
        simp [dictGet, optEntry] <;> split_ifs <;> simp

/-- Outcome of `subprocess.Popen` + `communicate` for one argv, as seen by the
pilot: either process creation fails (Python raises, e.g. FileNotFoundError),
or the child runs to completion with the given decoded stdout, decoded stderr
and exit status. -/
inductive SpawnResult where
  | failed (err : String)
  | completed (stdout stderr : String) (exitCode : Int)
deriving DecidableEq, Repr

/-- The log records `execute` emits when `mute` is false (pilot.py lines 80-83). -/
def executeLogs (cmd stdout stderr : String) : List LogEntry :=
  [⟨LogLevel.info, "cmd=" ++ cmd⟩,
   ⟨LogLevel.info, "stdout=\n" ++ stdout⟩,
   ⟨LogLevel.info, "stderr=\n" ++ stderr⟩]

/-- Split a character list on a separator character; consecutive separators
produce empty pieces, like Python `str.split(sep)` with an explicit `sep`. -/
def splitChars (sep : Char) : List Char → List (List Char)
  | [] => [[]]
  | c :: rest =>
      let r := splitChars sep rest
      if c = sep then [] :: r
      else
        match r with
        | [] => [[c]]
        | h :: t => (c :: h) :: t

/-- Python `s.split(' ')`: split on every single space. -/
def pySplitOnSpace (s : String) : List String :=
  (splitChars ' ' s.data).map List.asString

/-- Embedding of `execute` (pilot.py lines 64-85): split the command string on
single spaces, spawn the child through the `spawn` oracle, return the decoded
output pair with no exit-status check; a process-creation failure is an
uncaught exception, modelled by `Except.error`. -/
def execute (spawn : List String → SpawnResult) (cmd : String) (mute : Bool) :
    Except String ((String × String) × List LogEntry) :=
  let _cmd := pySplitOnSpace cmd
  match spawn _cmd with
  | SpawnResult.failed e => Except.error e
  | SpawnResult.completed stdout stderr _ =>
      Except.ok ((stdout, stderr), if mute then [] else executeLogs cmd stdout stderr)

/-- The file-system oracle for the file helpers: which `open` calls raise
`IOError`, which handles fail on `write`, and the current file contents
(`none` = file does not exist). -/
structure FS where
  openFails : String → String → Bool
  writeFails : String → Bool
  contents : String → Option String

/-- The value `open_file` hands back: a genuine file object, or the `""`
sentinel assigned when `open` raised (pilot.py line 108). -/
inductive FileValue where
  | filePtr (path : String) (mode : String)
  | noFile
deriving DecidableEq, Repr

/-- Python truthiness of the `open_file` result: the `""` sentinel is falsy,
a file object is truthy. -/
def FileValue.isTruthy : FileValue → Bool
  | FileValue.filePtr _ _ => true
  | FileValue.noFile => false

/-- Effect of a successful `open(filename, mode)` on the file system:
mode `'w'` truncates (or creates) the file, mode `'a'` creates it when absent. -/
def FS.afterOpen (fs : FS) (filename mode : String) : FS :=
  { fs with contents := fun p =>
      (if mode.contains 'w' then
        (if p = filename then some "" else fs.contents p)
      else if mode.contains 'a' then
        (if p = filename then some ((fs.contents filename).getD "") else fs.contents p)
      else fs.contents p) }

/-- Embedding of `open_file` (pilot.py lines 97-115): try to open; on an
`IOError` log the exception and return the falsy `""` sentinel instead of
re-raising (the `raise exc` is commented out in the source); on success return
the file object. The function is total: no error escapes to the caller. -/
def open_file (fs : FS) (filename mode : String) : FileValue × FS × List LogEntry :=
  if fs.openFails filename mode then
    (FileValue.noFile, fs,
     [⟨LogLevel.error, "exception caught: could not open " ++ filename⟩])
  else
    (FileValue.filePtr filename mode, fs.afterOpen filename mode, [])

/-- Embedding of `write_file` (pilot.py lines 118-152): open through
`open_file`; when the result is truthy, write (logging, not raising, on a write
error) and close; `status` is true only when open and write both succeeded;
on success and `not mute`, log a created/appended message. The `unique`
parameter is accepted and ignored, as in the source. -/
def write_file (fs : FS) (path contents : String) (mute : Bool) (mode : String)
    (unique : Bool) : Bool × FS × List LogEntry :=
  let opened := open_file fs path mode
  match opened.1 with
  | FileValue.noFile => (false, opened.2.1, opened.2.2)
  | FileValue.filePtr p _ =>
      let fs1 := opened.2.1
      if fs1.writeFails p then
        (false, fs1, opened.2.2 ++
          [⟨LogLevel.error, "caught exception: could not write " ++ p⟩])
      else
        let fs2 : FS := { fs1 with contents := fun q =>
          (if q = p then some ((fs1.contents p).getD "" ++ contents) else fs1.contents q) }
        let successLogs :=
          if !mute then
            (if mode.contains 'w' then [⟨LogLevel.info, "created file: " ++ path⟩] else [])
              ++ (if mode.contains 'a' then [⟨LogLevel.info, "appended file: " ++ path⟩] else [])
          else []
        (true, fs2, opened.2.2 ++ successLogs)

/-- Whether a string starts with the path separator `/`. -/
def headIsSlash (s : String) : Bool :=
  match s.data with
  | c :: _ => c = '/'
  | [] => false

/-- Whether a string ends with the path separator `/`. -/
def lastIsSlash (s : String) : Bool :=
  match s.data.getLast? with
  | some c => c = '/'
  | none => false

/-- `os.path.join(a, b)`: an absolute second component replaces the first;
otherwise the components are joined with a single separator. -/
def osPathJoin (a b : String) : String :=
  if headIsSlash b then b
  else if a.isEmpty then b
  else if lastIsSlash a then a ++ b
  else a ++ "/" ++ b

/-- Embedding of `get_job_definition_dict` (pilot.py lines 155-173): build the
path `<shared_dir>/job_definition-<job_id>.json`; whether or not it exists the
returned dict stays `{}` (the read is a `pass` stub); when it does not exist,
log a warning naming the path. `fileExists` is the `os.path.exists` oracle. -/
def get_job_definition_dict (fileExists : String → Bool) (job_id shared_dir : String) :
    List (String × String) × List LogEntry :=
  let path := osPathJoin shared_dir ("job_definition-" ++ job_id ++ ".json")
  if fileExists path then
    ([], [])
  else
    ([], [⟨LogLevel.warning, "file does not exist: " ++ path⟩])

/-- Outcome of the `Client(host)` constructor call: either it raises (the
scheduler handshake failed — the driver has no try/except around it), or it
returns a client object of the given Python truthiness. -/
inductive ClientResult where
  | raisesExc
  | client (truthy : Bool)
deriving DecidableEq, Repr

/-- The external world the bootstrap driver runs in: the process environment,
the `Client` constructor oracle (indexed by the host address), and the spawn
oracle used for the `wget` fetch. -/
structure World where
  env : Env
  clientResult : String → ClientResult
  spawn : List String → SpawnResult

/-- How a run of the `__main__` sequence ends: a `sys.exit(code)` through the
pilot's `exit` helper, or an uncaught exception (abrupt crash, no teardown). -/
inductive Outcome where
  | exited (code : Nat)
  | crashed
deriving DecidableEq, Repr

/-- Observable summary of one driver run: how it ended, how many times the
`Client` constructor was invoked, whether the `wget` fetch step was reached,
and whether termination went through the pilot `exit` helper (which logs the
final status line and shuts down logging — pilot.py lines 225-235). -/
structure DriverResult where
  outcome : Outcome
  connectionAttempts : Nat
  reachedFetch : Bool
  finalLogAndShutdown : Bool
deriving DecidableEq, Repr

/-- Termination through the pilot `exit` helper (pilot.py lines 225-235):
logs the final status line and shuts down logging before `sys.exit`. -/
def pilotExit (code attempts : Nat) (fetched : Bool) : DriverResult :=
  { outcome := Outcome.exited code
    connectionAttempts := attempts
    reachedFetch := fetched
    finalLogAndShutdown := true }

/-- Embedding of the `__main__` sequence (pilot.py lines 238-303): discover the
required variables, read `host`/`url`/`job_id` and — as written in the source —
the key `'shared_dir'` (line 252); if any is falsy, exit 1; otherwise construct
the client (exit 2 when it is falsy, crash when the constructor raises), run
`wget <url>` through `execute` (crash if the spawn raises), re-export the
variables with `setenv`, run the execution stub, and exit 0. -/
def pilotMain (w : World) : DriverResult :=
  let required_vars := get_required_vars_dict w.env
  let host := dictGet required_vars "host"
  let url := dictGet required_vars "url"
  let job_id := dictGet required_vars "job_id"
  let shared_dir := dictGet required_vars "shared_dir"
  if !pyTruthy host || !pyTruthy url || !pyTruthy job_id || !pyTruthy shared_dir then
    pilotExit ERROR_UNSET_ENVVAR 0 false
  else
    match w.clientResult (host.getD "") with
    | ClientResult.raisesExc =>
        { outcome := Outcome.crashed
          connectionAttempts := 1
          reachedFetch := false
          finalLogAndShutdown := false }
    | ClientResult.client truthy =>
        if !truthy then
          pilotExit ERROR_SCHEDULER 1 false
        else
          match execute w.spawn ("wget " ++ url.getD "") true with
          | Except.error _ =>
              { outcome := Outcome.crashed
                connectionAttempts := 1
                reachedFetch := true
                finalLogAndShutdown := false }
          | Except.ok _ =>
              let _env2 := setenv w.env
                [("DASK_SCHEDULER_IP", host.getD ""),
                 ("DASK_SHARED_FILESYSTEM_PATH", shared_dir.getD ""),
                 ("PANDA_ID", job_id.getD "")]
              pilotExit 0 1 true

/-- The driver as written can only ever exit 1 with no connection attempt:
`__main__` reads `required_vars.get('shared_dir')` while
`get_required_vars_dict` stores the key `'shared_disk'`, so `shared_dir` is
always `None` and the missing-variable branch is always taken. -/
theorem pilotMain_always_exit_one (w : World) :
    pilotMain w = pilotExit ERROR_UNSET_ENVVAR 0 false := by
  simp only [pilotMain, dictGet_grvd_shared_dir]
  simp [pyTruthy]

/-- When every `some` value of `o` is non-empty, the truthiness filter of the
discovery loop keeps `o` unchanged. -/
theorem truthyFilter_eq_self (o : Option String) (h : ∀ s, o = some s → s ≠ "") :
    truthyFilter o = o := by
  cases o with
  | none => rfl
  | some s =>
      have hs : s ≠ "" := h s rfl
      simp [truthyFilter, String.isEmpty_iff, hs]

/-- The spec scenario environment: the three required variables set to the
sample values, nothing else set. -/
def fullEnv : Env := fun n =>
  if n = "DASK_SCHEDULER_IP" then some "tcp://127.0.0.1:8786"
  else if n = "DASK_SHARED_FILESYSTEM_PATH" then some "/mnt/dask"
  else if n = "PANDA_ID" then some "123"
  else none

/-- The spec scenario world for the success path: full environment, a
reachable scheduler (the client constructor returns a truthy client), and a
spawnable `wget`. -/
def c1World : World :=
  { env := fullEnv
    clientResult := fun _ => ClientResult.client true
    spawn := fun _ => SpawnResult.completed "" "" 0 }

/-- The connectivity-failure world: full environment, but the client
constructor raises (scheduler unreachable). -/
def c8World : World :=
  { env := fullEnv
    clientResult := fun _ => ClientResult.raisesExc
    spawn := fun _ => SpawnResult.completed "" "" 0 }

/-- C1: with `DASK_SCHEDULER_IP`, `PANDA_ID` and `DASK_SHARED_FILESYSTEM_PATH`
all set non-empty and a succeeding client connection, the claim says the driver
passes validation, reaches the `wget` fetch and exits 0. The code instead exits
1 without ever attempting the connection or the fetch: `__main__` reads the key
`'shared_dir'` from the discovered dict, which stores `'shared_disk'`. -/
theorem c1_full_env_success_path :
    fullEnv "DASK_SCHEDULER_IP" = some "tcp://127.0.0.1:8786"
    ∧ fullEnv "DASK_SHARED_FILESYSTEM_PATH" = some "/mnt/dask"
    ∧ fullEnv "PANDA_ID" = some "123"
    ∧ c1World.clientResult "tcp://127.0.0.1:8786" = ClientResult.client true
    ∧ pilotMain c1World =
        { outcome := Outcome.exited 1
          connectionAttempts := 0
          reachedFetch := false
          finalLogAndShutdown := true } :=
  ⟨rfl, rfl, rfl, rfl, (pilotMain_always_exit_one c1World).trans rfl⟩

/-- C8: with all required variables present and the scheduler unreachable (the
client constructor raises), the claim says the connection is attempted exactly
once and the process exits 2 through the logging-teardown exit path. The code
instead exits 1 with zero connection attempts, for the same `'shared_dir'` /
`'shared_disk'` key mismatch. -/
theorem c8_connection_failure_path :
    fullEnv "DASK_SCHEDULER_IP" = some "tcp://127.0.0.1:8786"
    ∧ fullEnv "DASK_SHARED_FILESYSTEM_PATH" = some "/mnt/dask"
    ∧ fullEnv "PANDA_ID" = some "123"
    ∧ c8World.clientResult "tcp://127.0.0.1:8786" = ClientResult.raisesExc
    ∧ pilotMain c8World =
        { outcome := Outcome.exited 1
          connectionAttempts := 0
          reachedFetch := false
          finalLogAndShutdown := true } :=
  ⟨rfl, rfl, rfl, rfl, (pilotMain_always_exit_one c8World).trans rfl⟩

/-- C2: for every subset of the three required variables left unset (the set
ones holding non-empty values), `get_required_vars_dict` omits exactly the
corresponding keys — each of `host`, `shared_disk`, `job_id` maps to exactly
the environment value of its variable — and whenever at least one is unset the
driver exits 1 having attempted no scheduler connection. -/
theorem c2_omission_and_exit (env : Env) (w : World) (hw : w.env = env)
    (hh : ∀ s, env "DASK_SCHEDULER_IP" = some s → s ≠ "")
    (hs : ∀ s, env "DASK_SHARED_FILESYSTEM_PATH" = some s → s ≠ "")
    (hj : ∀ s, env "PANDA_ID" = some s → s ≠ "") :
    dictGet (get_required_vars_dict env) "host" = env "DASK_SCHEDULER_IP"
    ∧ dictGet (get_required_vars_dict env) "shared_disk" =
        env "DASK_SHARED_FILESYSTEM_PATH"
    ∧ dictGet (get_required_vars_dict env) "job_id" = env "PANDA_ID"
    ∧ ((env "DASK_SCHEDULER_IP" = none ∨ env "DASK_SHARED_FILESYSTEM_PATH" = none
          ∨ env "PANDA_ID" = none) →
        pilotMain w =
          { outcome := Outcome.exited ERROR_UNSET_ENVVAR
            connectionAttempts := 0
            reachedFetch := false
            finalLogAndShutdown := true }) := by
  refine ⟨?_, ?_, ?_, ?_⟩
  · rw [dictGet_grvd_host, truthyFilter_eq_self _ hh]
  · rw [dictGet_grvd_shared_disk, truthyFilter_eq_self _ hs]
  · rw [dictGet_grvd_job_id, truthyFilter_eq_self _ hj]
  · intro _
    exact (pilotMain_always_exit_one w).trans rfl

/-- An environment with `PANDA_ID` unset and the other two required variables
set to the spec's sample values. -/
def c2WitnessEnv : Env := fun n =>
  if n = "DASK_SCHEDULER_IP" then some "tcp://127.0.0.1:8786"
  else if n = "DASK_SHARED_FILESYSTEM_PATH" then some "/mnt/dask"
  else none

/-- A world over `c2WitnessEnv` with a reachable scheduler and spawnable wget. -/
def c2WitnessWorld : World :=
  { env := c2WitnessEnv
    clientResult := fun _ => ClientResult.client true
    spawn := fun _ => SpawnResult.completed "" "" 0 }

/-- Closed witness for C2: with only `PANDA_ID` unset, the dict keeps exactly
`host` and `shared_disk` with their values and omits `job_id`, and the driver
exits 1 with no connection attempt. -/
theorem c2_omission_and_exit_witness :
    dictGet (get_required_vars_dict c2WitnessEnv) "host" = some "tcp://127.0.0.1:8786"
    ∧ dictGet (get_required_vars_dict c2WitnessEnv) "shared_disk" = some "/mnt/dask"
    ∧ dictGet (get_required_vars_dict c2WitnessEnv) "job_id" = none
    ∧ pilotMain c2WitnessWorld =
        { outcome := Outcome.exited ERROR_UNSET_ENVVAR
          connectionAttempts := 0
          reachedFetch := false
          finalLogAndShutdown := true } := by
  have h := c2_omission_and_exit c2WitnessEnv c2WitnessWorld rfl
    (by intro s hsome; simp [c2WitnessEnv] at hsome; subst hsome; decide)
    (by intro s hsome; simp [c2WitnessEnv] at hsome; subst hsome; decide)
    (by intro s hsome; simp [c2WitnessEnv] at hsome)
  exact ⟨h.1.trans rfl, h.2.1.trans rfl, h.2.2.1.trans rfl, h.2.2.2 (Or.inr (Or.inr rfl))⟩

/-- C3: whenever `DASK_USERCODE_URL` is unset, the discovered dict maps `url`
to the hardcoded default `http://cern.ch/atlas-panda-pilot/dask_script.py`,
for every state of the other environment variables. -/
theorem c3_url_default (env : Env) (h : env "DASK_USERCODE_URL" = none) :
    dictGet (get_required_vars_dict env) "url" =
      some "http://cern.ch/atlas-panda-pilot/dask_script.py" := by
  rw [dictGet_grvd_url, h]
  rfl

/-- Closed witness for C3: in the empty environment `DASK_USERCODE_URL` is
unset and the dict yields the default URL. -/
theorem c3_url_default_witness :
    dictGet (get_required_vars_dict (fun _ => none)) "url" =
      some "http://cern.ch/atlas-panda-pilot/dask_script.py" :=
  c3_url_default (fun _ => none) rfl

/-- Removing one variable from the environment (`none` at that name). -/
def envUnset (e : Env) (k : String) : Env :=
  fun n => if n = k then none else e n

/-- C9: setting any one of the three required variables to the empty string
makes `get_required_vars_dict` produce exactly the dict it would produce with
that variable unset — the key is omitted — and the driver run exits 1 through
the missing-variable branch, with no connection attempted. -/
theorem c9_empty_value_like_unset (env : Env) (name : String) (w : World)
    (hw : w.env = env)
    (hname : name = "DASK_SCHEDULER_IP" ∨ name = "DASK_SHARED_FILESYSTEM_PATH"
      ∨ name = "PANDA_ID")
    (hempty : env name = some "") :
    get_required_vars_dict env = get_required_vars_dict (envUnset env name)
    ∧ pilotMain w =
        { outcome := Outcome.exited ERROR_UNSET_ENVVAR
          connectionAttempts := 0
          reachedFetch := false
          finalLogAndShutdown := true } := by
  constructor
  · rcases hname with h | h | h <;> subst h <;>
      rw [grvd_eq, grvd_eq] <;>
        simp [envUnset, optEntry, hempty] <;> decide
  · exact (pilotMain_always_exit_one w).trans rfl

/-- An environment with `PANDA_ID` set to the empty string and the other two
required variables set to the spec's sample values. -/
def c9WitnessEnv : Env := fun n =>
  if n = "DASK_SCHEDULER_IP" then some "tcp://127.0.0.1:8786"
  else if n = "DASK_SHARED_FILESYSTEM_PATH" then some "/mnt/dask"
  else if n = "PANDA_ID" then some ""
  else none

/-- Closed witness for C9: with `PANDA_ID=""` and the other two set, the dict
equals the one computed with `PANDA_ID` unset, and the driver exits 1. -/
theorem c9_empty_value_like_unset_witness :
    get_required_vars_dict c9WitnessEnv =
      get_required_vars_dict (envUnset c9WitnessEnv "PANDA_ID")
    ∧ pilotMain { env := c9WitnessEnv
                  clientResult := fun _ => ClientResult.client true
                  spawn := fun _ => SpawnResult.completed "" "" 0 } =
        { outcome := Outcome.exited ERROR_UNSET_ENVVAR
          connectionAttempts := 0
          reachedFetch := false
          finalLogAndShutdown := true } :=
  c9_empty_value_like_unset c9WitnessEnv "PANDA_ID" _
    rfl (Or.inr (Or.inr rfl)) rfl

/-- `setenv` leaves every name it does not mention untouched. -/
theorem setenv_not_mem (env : Env) (vars : List (String × String)) (k : String)
    (h : k ∉ vars.map Prod.fst) : setenv env vars k = env k := by
  induction vars generalizing env with
  | nil => rfl
  | cons hd tl ih =>
      have hk : k ∉ tl.map Prod.fst := by
        intro hmem
        exact h (by simp [hmem])
      have hne : k ≠ hd.1 := by
        intro heq
        exact h (by simp [heq])
      calc setenv env (hd :: tl) k
          = setenv (envStore env hd.1 hd.2) tl k := rfl
        _ = envStore env hd.1 hd.2 k := ih _ hk
        _ = env k := by simp [envStore, hne]

/-- C4: after `setenv` with a mapping (a Python dict, so its keys are
distinct), looking up each mapped name in the process environment returns
exactly the value the mapping gave it. -/
theorem c4_setenv_roundtrip (env : Env) (vars : List (String × String))
    (hnodup : (vars.map Prod.fst).Nodup) :
    ∀ p ∈ vars, setenv env vars p.1 = some p.2 := by
  induction vars generalizing env with
  | nil => intro p hp; exact absurd hp (by simp)
  | cons hd tl ih =>
      have hnodup' := hnodup
      rw [List.map_cons] at hnodup'
      have hnd := List.nodup_cons.mp hnodup'
      intro p hp
      rcases List.mem_cons.mp hp with h | h
      · subst h
        calc setenv env (p :: tl) p.1
            = setenv (envStore env p.1 p.2) tl p.1 := rfl
          _ = envStore env p.1 p.2 p.1 := setenv_not_mem _ _ _ hnd.1
          _ = some p.2 := by simp [envStore]
      · exact ih (envStore env hd.1 hd.2) hnd.2 p h

/-- Closed witness for C4: re-injecting the three discovered variables makes
each retrievable with its value, starting from the empty environment. -/
theorem c4_setenv_roundtrip_witness :
    setenv (fun _ => none)
      [("DASK_SCHEDULER_IP", "tcp://127.0.0.1:8786"),
       ("DASK_SHARED_FILESYSTEM_PATH", "/mnt/dask"),
       ("PANDA_ID", "123")] "DASK_SCHEDULER_IP" = some "tcp://127.0.0.1:8786" :=
  c4_setenv_roundtrip (fun _ => none)
    [("DASK_SCHEDULER_IP", "tcp://127.0.0.1:8786"),
     ("DASK_SHARED_FILESYSTEM_PATH", "/mnt/dask"),
     ("PANDA_ID", "123")]
    (by decide)
    ("DASK_SCHEDULER_IP", "tcp://127.0.0.1:8786") (by simp)

/-- C5: `write_file` returns true exactly when both the open and the write
succeeded; on an unwritable path (the open raises) it returns false, leaves
the file system unchanged — no partial content — and logs exactly one error. -/
theorem c5_write_file_status (fs : FS) (path c : String) (mute : Bool)
    (mode : String) (u : Bool) :
    (write_file fs path c mute mode u).1 =
      (!fs.openFails path mode && !fs.writeFails path)
    ∧ (fs.openFails path mode = true →
        (write_file fs path c mute mode u).1 = false
        ∧ (write_file fs path c mute mode u).2.1 = fs
        ∧ countErrors (write_file fs path c mute mode u).2.2 = 1) := by
  cases ho : fs.openFails path mode <;>
    cases hw : fs.writeFails path <;>
      simp [write_file, open_file, FS.afterOpen, countErrors, List.filter, ho, hw]

/-- An FS oracle on which every open raises: an unwritable location. -/
def unwritableFS : FS :=
  { openFails := fun _ _ => true
    writeFails := fun _ => false
    contents := fun _ => none }

/-- Closed witness for C5: on the unwritable oracle, `write_file` returns
false, leaves the file system untouched, and logs exactly one error. -/
theorem c5_write_file_status_witness :
    (write_file unwritableFS "/out/res.txt" "data" true "w" false).1 = false
    ∧ (write_file unwritableFS "/out/res.txt" "data" true "w" false).2.1 = unwritableFS
    ∧ countErrors (write_file unwritableFS "/out/res.txt" "data" true "w" false).2.2 = 1 :=
  (c5_write_file_status unwritableFS "/out/res.txt" "data" true "w" false).2 rfl

/-- C6: when the underlying open raises an I/O error, `open_file` returns the
`""` sentinel (falsy under Python truthiness) instead of a file handle and
logs the error; the embedding of `open_file` is a total function, so the
error never propagates to the caller. -/
theorem c6_open_file_sentinel (fs : FS) (filename mode : String)
    (h : fs.openFails filename mode = true) :
    (open_file fs filename mode).1 = FileValue.noFile
    ∧ (open_file fs filename mode).1.isTruthy = false
    ∧ countErrors (open_file fs filename mode).2.2 = 1 := by
  simp [open_file, h, FileValue.isTruthy, countErrors, List.filter]

/-- Closed witness for C6: opening on the all-raising oracle yields the falsy
sentinel and one logged error. -/
theorem c6_open_file_sentinel_witness :
    (open_file unwritableFS "/etc/hosts" "r").1 = FileValue.noFile
    ∧ (open_file unwritableFS "/etc/hosts" "r").1.isTruthy = false
    ∧ countErrors (open_file unwritableFS "/etc/hosts" "r").2.2 = 1 :=
  c6_open_file_sentinel unwritableFS "/etc/hosts" "r" rfl

/-- C7: `execute` splits the command string on single spaces and hands the
argv to the spawn oracle; on a completed child it returns the decoded
`(stdout, stderr)` pair with no exit-status check — the stated result does not
depend on the exit code, so a failing child is indistinguishable from a
successful one — and on a process-creation failure the error propagates to
the caller as `Except.error` rather than as empty output. -/
theorem c7_execute_spec (spawn : List String → SpawnResult) (cmd : String)
    (mute : Bool) (out err e : String) (code : Int) :
    (spawn (pySplitOnSpace cmd) = SpawnResult.completed out err code →
      execute spawn cmd mute =
        Except.ok ((out, err), if mute then [] else executeLogs cmd out err))
    ∧ (spawn (pySplitOnSpace cmd) = SpawnResult.failed e →
      execute spawn cmd mute = Except.error e) := by
  constructor <;> intro h <;> simp [execute, h]

/-- A spawn oracle that knows only the argv `["echo", "hi"]`; everything else
fails to spawn, as a nonexistent executable would. -/
def echoSpawn : List String → SpawnResult := fun argv =>
  if argv = ["echo", "hi"] then SpawnResult.completed "hi\n" "" 0
  else SpawnResult.failed "FileNotFoundError"

/-- Closed witness for C7: `echo hi` returns its stdout and empty stderr, and
a nonexistent executable surfaces as a propagated error. -/
theorem c7_execute_spec_witness :
    execute echoSpawn "echo hi" true = Except.ok (("hi\n", ""), [])
    ∧ execute echoSpawn "bogus" true = Except.error "FileNotFoundError" :=
  ⟨by
      have h := (c7_execute_spec echoSpawn "echo hi" true "hi\n" "" "" 0).1 (by decide)
      simpa using h,
   by
      have h := (c7_execute_spec echoSpawn "bogus" true "" "" "FileNotFoundError" 0).2
        (by decide)
      exact h⟩

/-- C10: `get_job_definition_dict` returns the empty dict whether or not the
job-definition file exists (the read is a stub), and when
`<shared_dir>/job_definition-<job_id>.json` does not exist it logs exactly one
warning naming that path. -/
theorem c10_job_definition_stub (fileExists : String → Bool)
    (job_id shared_dir : String) :
    (get_job_definition_dict fileExists job_id shared_dir).1 = []
    ∧ (fileExists (osPathJoin shared_dir ("job_definition-" ++ job_id ++ ".json"))
          = false →
        (get_job_definition_dict fileExists job_id shared_dir).2 =
          [⟨LogLevel.warning, "file does not exist: "
              ++ osPathJoin shared_dir ("job_definition-" ++ job_id ++ ".json")⟩]) := by
  cases h : fileExists (osPathJoin shared_dir ("job_definition-" ++ job_id ++ ".json")) <;>
    simp [get_job_definition_dict, h]

/-- Closed witness for C10: with no file present, looking up job 123 under
`/mnt/dask` yields the empty dict and the warning naming the joined path. -/
theorem c10_job_definition_stub_witness :
    (get_job_definition_dict (fun _ => false) "123" "/mnt/dask").1 = []
    ∧ (get_job_definition_dict (fun _ => false) "123" "/mnt/dask").2 =
        [⟨LogLevel.warning, "file does not exist: /mnt/dask/job_definition-123.json"⟩] := by
  have h := c10_job_definition_stub (fun _ => false) "123" "/mnt/dask"
  exact ⟨h.1, (h.2 rfl).trans (by decide)⟩

end DaskPilot
